import Mathlib

/- Shallow embedding of the software-renderer frontend of a terminal
   emulator (source file src/frontend/software/termwindow.rs), together
   with theorems checking its natural-language specification against it.
   Machine floats are modelled as rationals; Rust float-to-integer
   as-casts are modelled by truncation toward zero; u16 as-casts wrap
   modulo 2^16. -/

set_option autoImplicit false

namespace TermWindowModel

/-- An RGBA window color as produced by the Color constructors of the
window crate. -/
structure Color where
  r : Nat
  g : Nat
  b : Nat
  a : Nat
  deriving DecidableEq, Repr

/-- Color.rgb fills the alpha channel with 0xff. -/
def Color.rgb (r g b : Nat) : Color := ⟨r, g, b, 255⟩

/-- Truncation toward zero: the behavior of a Rust float-to-integer
as-cast (in range). -/
def truncToInt (q : ℚ) : Int := if 0 ≤ q then ⌊q⌋ else ⌈q⌉

/-- A u16 as-cast in Rust wraps modulo 2^16. -/
def toU16 (n : Nat) : Nat := n % 65536

/-! Glyph loading and the fit-scale (TermWindow::load_glyph). -/

/-- Positioned glyph descriptor produced by shaping (font::GlyphInfo);
only the fields the renderer reads are modelled. -/
structure GlyphInfo where
  font_idx : Nat
  glyph_pos : Nat
  num_cells : Nat
  x_advance : ℚ
  x_offset : ℚ
  y_offset : ℚ
  deriving DecidableEq, Repr

/-- One rasterized glyph bitmap with its metrics, as returned by
rasterize_glyph; the pixel data itself is not needed by the theorems. -/
structure RasterizedGlyph where
  width : Nat
  height : Nat
  bearing_x : ℚ
  bearing_y : ℚ
  deriving DecidableEq, Repr

/-- The fit-scale computed at the top of TermWindow::load_glyph
(termwindow.rs lines 952-958).  Note the floor applied to the per-cell
advance before the comparison with the cell width. -/
def fitScale (cell_width cell_height : ℚ) (info : GlyphInfo)
    (glyph_height : Nat) : ℚ :=
  if ((⌊info.x_advance / (info.num_cells : ℚ)⌋ : ℚ) > cell_width) then
    (info.num_cells : ℚ) * (cell_width / info.x_advance)
  else if (glyph_height : ℚ) > cell_height then
    cell_height / (glyph_height : ℚ)
  else
    1

/-- The fit-scale as claim C2 and the specification word it: the raw
per-cell advance is compared with the cell width, with no floor.  Written
from the words of the spec, for comparison with fitScale. -/
def fitScaleSpecC2 (cell_width cell_height : ℚ) (info : GlyphInfo)
    (glyph_height : Nat) : ℚ :=
  if info.x_advance / (info.num_cells : ℚ) > cell_width then
    (info.num_cells : ℚ) * (cell_width / info.x_advance)
  else if (glyph_height : ℚ) > cell_height then
    cell_height / (glyph_height : ℚ)
  else
    1

/-- Model of struct CachedGlyph; the sprite is represented by the
identifier of its atlas allocation, none for whitespace glyphs. -/
structure CachedGlyph where
  has_color : Bool
  x_offset : ℚ
  y_offset : ℚ
  bearing_x : ℚ
  bearing_y : ℚ
  texture : Option Nat
  scale : ℚ
  deriving DecidableEq, Repr

/-- TermWindow::load_glyph (lines 941-1007) after the font system has
produced the rasterized glyph: compute the fit-scale, scale the offsets
when the scale is not one, and either build a whitespace glyph (no
texture) or scale the bearings, resample the bitmap (after which the
stored scale is reset to one) and allocate it into the atlas.  The atlas
allocation outcome is a parameter: the allocated sprite identifier, or
the OutOfTextureSpace required size as the error. -/
def loadGlyph (cell_width cell_height : ℚ) (has_color : Bool)
    (info : GlyphInfo) (glyph : RasterizedGlyph)
    (alloc : Except Nat Nat) : Except Nat CachedGlyph :=
  let scale := fitScale cell_width cell_height info glyph.height
  let xy :=
    if scale ≠ 1 then (info.x_offset * scale, info.y_offset * scale)
    else (info.x_offset, info.y_offset)
  if glyph.width = 0 ∨ glyph.height = 0 then
    .ok { has_color := has_color, x_offset := xy.1, y_offset := xy.2,
          bearing_x := 0, bearing_y := 0, texture := none, scale := scale }
  else
    let bearing_x := glyph.bearing_x * scale
    let bearing_y := glyph.bearing_y * scale
    let scale2 := if scale ≠ 1 then 1 else scale
    match alloc with
    | .error size => .error size
    | .ok tex =>
      .ok { has_color := has_color, x_offset := xy.1, y_offset := xy.2,
            bearing_x := bearing_x, bearing_y := bearing_y,
            texture := some tex, scale := scale2 }

/-! Mouse events (TermWindow::mouse_event). -/

/-- The set of pressed buttons carried by a window mouse event
(window::MouseButtons bit flags). -/
structure MouseButtons where
  left : Bool
  right : Bool
  middle : Bool
  deriving DecidableEq, Repr

def MouseButtons.LEFT : MouseButtons := ⟨true, false, false⟩

def MouseButtons.RIGHT : MouseButtons := ⟨false, true, false⟩

def MouseButtons.MIDDLE : MouseButtons := ⟨false, false, true⟩

/-- window::MousePress. -/
inductive MousePress
  | left
  | middle
  | right
  deriving DecidableEq, Repr

/-- window::MouseEventKind. -/
inductive WMouseEventKind
  | move
  | press (p : MousePress)
  | release (p : MousePress)
  | doubleClick (p : MousePress)
  | vertWheel (amount : Int)
  | horzWheel (amount : Int)
  deriving DecidableEq, Repr

/-- term::input::MouseButton. -/
inductive TMB
  | left
  | right
  | middle
  | wheelUp (amount : Nat)
  | wheelDown (amount : Nat)
  | none
  deriving DecidableEq, Repr

/-- The button field of the terminal mouse event built by
TermWindow::mouse_event (lines 137-164).  For a move event the held
button set is compared for equality against the single-flag constants,
so a combination of several held buttons matches none of them. -/
def mouseEventButton (kind : WMouseEventKind)
    (mouse_buttons : MouseButtons) : TMB :=
  match kind with
  | .release p | .press p | .doubleClick p =>
    match p with
    | .left => .left
    | .middle => .middle
    | .right => .right
  | .move =>
    if mouse_buttons = MouseButtons.LEFT then .left
    else if mouse_buttons = MouseButtons.RIGHT then .right
    else if mouse_buttons = MouseButtons.MIDDLE then .middle
    else .none
  | .vertWheel amount =>
    if amount > 0 then .wheelUp amount.toNat else .wheelDown (-amount).toNat
  | .horzWheel _ => .none

/-- The move-event button as claim C3 words it: the left button wins
whenever it is held, regardless of other held buttons, then right, then
middle.  Written from the words of the spec, for comparison with
mouseEventButton. -/
def moveButtonSpecC3 (mouse_buttons : MouseButtons) : TMB :=
  if mouse_buttons.left then .left
  else if mouse_buttons.right then .right
  else if mouse_buttons.middle then .middle
  else .none

/-- The move-event button as amended: a button is reported only when it
is the only button held; every other held set, including any
multi-button combination, reports none. -/
def moveButtonSpecC3Amended (mouse_buttons : MouseButtons) : TMB :=
  if mouse_buttons.left ∧ ¬mouse_buttons.right ∧ ¬mouse_buttons.middle then
    .left
  else if mouse_buttons.right ∧ ¬mouse_buttons.left ∧ ¬mouse_buttons.middle then
    .right
  else if mouse_buttons.middle ∧ ¬mouse_buttons.left ∧ ¬mouse_buttons.right then
    .middle
  else
    .none

/-! Cluster foreground resolution (TermWindow::render_screen_line). -/

/-- term::color::ColorAttribute; the truecolor variant is abstracted to
an opaque payload since only the palette-index logic is at stake. -/
inductive ColorAttribute
  | default
  | paletteIndex (idx : Nat)
  | trueColor (payload : Nat)
  deriving DecidableEq, Repr

/-- The foreground color a cluster resolves to, from
TermWindow::render_screen_line lines 658-678.  The palette resolver and
the optional configured style foreground are abstract parameters (the
palette lives in the term crate, outside this file tree); bold says
whether the cell intensity is Bold. -/
def clusterFgColor {α : Type} (resolve_fg : ColorAttribute → α)
    (style_foreground : Option α) (bold : Bool)
    (foreground : ColorAttribute) : α :=
  match foreground with
  | .default =>
    match style_foreground with
    | some fg => fg
    | none => resolve_fg .default
  | .paletteIndex idx =>
    if idx < 8 then
      resolve_fg (.paletteIndex (if bold then idx + 8 else idx))
    else
      resolve_fg (.paletteIndex idx)
  | other => resolve_fg other

/-! The glyph cache (TermWindow::cached_glyph). -/

/-- struct GlyphKey; TextStyle is an opaque handle with decidable
equality, modelled as a Nat. -/
structure GlyphKey where
  font_idx : Nat
  glyph_pos : Nat
  style : Nat
  deriving DecidableEq, Repr

/-- State of the glyph_cache HashMap, as an association list from keys
to the identity of the Rc each entry was allocated under, together with
a counter supplying fresh identities and a log of the load_glyph
invocations made so far. -/
structure GlyphCacheState where
  entries : List (GlyphKey × Nat)
  next_id : Nat
  raster_calls : List GlyphKey
  deriving DecidableEq, Repr

/-- First value stored under a key, like HashMap::get. -/
def lookupEntry : List (GlyphKey × Nat) → GlyphKey → Option Nat
  | [], _ => none
  | (k, v) :: rest, key => if k = key then some v else lookupEntry rest key

/-- TermWindow::cached_glyph (lines 921-937): return a clone of the
memoized Rc when the key is present; otherwise invoke load_glyph
(recorded in raster_calls; it may fail, modelled by the can_rasterize
predicate) and insert the freshly allocated entry. -/
def cachedGlyph (can_rasterize : GlyphKey → Bool) (key : GlyphKey)
    (st : GlyphCacheState) : Except Unit (Nat × GlyphCacheState) :=
  match lookupEntry st.entries key with
  | some id => .ok (id, st)
  | none =>
    let st1 : GlyphCacheState :=
      { st with raster_calls := st.raster_calls ++ [key] }
    if can_rasterize key then
      .ok (st1.next_id,
        { st1 with
          entries := (key, st1.next_id) :: st1.entries,
          next_id := st1.next_id + 1 })
    else
      .error ()

/-! Tab activation (TermWindow::activate_tab). -/

/-- A mux window: the ordered tab ids it holds and the index of the
active tab. -/
structure MuxWindow where
  tabs : List Nat
  active : Nat
  deriving DecidableEq, Repr

/-- TermWindow::activate_tab (lines 386-400).  The Bool in the result
records whether update_title was invoked.  The mux lookup of the window
is the Option parameter; a missing window is the only error. -/
def activateTab (window : Option MuxWindow) (tab_idx : Nat) :
    Except String (MuxWindow × Bool) :=
  match window with
  | none => .error "no such window"
  | some w =>
    if tab_idx < w.tabs.length then
      .ok ({ w with active := tab_idx }, true)
    else
      .ok (w, false)

/-! Painting one tab (TermWindow::paint_tab). -/

/-- The observable actions of TermWindow::paint_tab. -/
inductive TabPaintEvent
  | renderLine (line_idx : Nat)
  | cleanDirtyLines
  | clearBottomMargin
  deriving DecidableEq, Repr

/-- TermWindow::paint_tab (lines 600-630) applied to the indices of the
lines the renderable reports dirty: render_screen_line runs on each in
order under the question-mark operator, so the first error returns
before clean_dirty_lines and before the bottom-margin clear; on success
clean_dirty_lines runs once and then the margin below the last row is
cleared.  The outcome of rendering each line is an abstract parameter;
errors carry a Nat (for OutOfTextureSpace, the required size). -/
def paintTab (render : Nat → Except Nat Unit) :
    List Nat → List TabPaintEvent × Option Nat
  | [] => ([.cleanDirtyLines, .clearBottomMargin], none)
  | i :: rest =>
    match render i with
    | .error e => ([.renderLine i], some e)
    | .ok _ =>
      let r := paintTab render rest
      (.renderLine i :: r.1, r.2)

/-! Scaling and resizing (TermWindow::scaling_changed). -/

/-- window::Dimensions. -/
structure Dimensions where
  pixel_width : Nat
  pixel_height : Nat
  dpi : Nat
  deriving DecidableEq, Repr

/-- The font metrics default_font_metrics reports. -/
structure FontMetrics where
  cell_width : ℚ
  cell_height : ℚ
  descender : ℚ
  deriving DecidableEq, Repr

/-- portable_pty::PtySize (all fields u16). -/
structure PtySize where
  rows : Nat
  cols : Nat
  pixel_width : Nat
  pixel_height : Nat
  deriving DecidableEq, Repr

/-- The fields of TermWindow that scaling_changed touches.  The font
configuration scale (fonts.get_font_scale, updated by change_scaling) is
folded in as font_scale, and the glyph cache is represented by a
generation counter that recreate_texture_atlas bumps when it clears the
cache.  The cell sizes are the (nonnegative) usize ceilings stored into
cell_size. -/
structure ScalingState where
  cell_width : Nat
  cell_height : Nat
  dimensions : Dimensions
  descender : ℚ
  descender_row : Int
  descender_plus_one : Int
  descender_plus_two : Int
  strike_row : Int
  font_scale : ℚ
  atlas_size : Nat
  cache_generation : Nat
  deriving DecidableEq, Repr

/-- TermWindow::scaling_changed (lines 529-575).  The mux window (the
list of attached tab ids) and the metrics the font configuration
reports after change_scaling are abstract parameters; the returned list
records the PtySize passed to resize for each tab, in order.  When the
mux has no window for the id, nothing at all happens. -/
def scalingChanged (metrics_for : ℚ → Nat → FontMetrics)
    (window : Option (List Nat)) (st : ScalingState)
    (dimensions : Dimensions) (font_scale : ℚ) :
    ScalingState × List (Nat × PtySize) :=
  match window with
  | none => (st, [])
  | some tabs =>
    let st1 :=
      if dimensions.dpi ≠ st.dimensions.dpi ∨ font_scale ≠ st.font_scale then
        let metrics := metrics_for font_scale dimensions.dpi
        let cell_height := metrics.cell_height.ceil.toNat
        let cell_width := metrics.cell_width.ceil.toNat
        let descender_row := truncToInt ((cell_height : ℚ) + metrics.descender)
        let descender_plus_one := min (1 + descender_row) ((cell_height : Int) - 1)
        let descender_plus_two := min (2 + descender_row) ((cell_height : Int) - 1)
        let strike_row := descender_row / 2
        { st with
          cache_generation := st.cache_generation + 1,
          descender := metrics.descender,
          descender_row := descender_row,
          descender_plus_one := descender_plus_one,
          descender_plus_two := descender_plus_two,
          strike_row := strike_row,
          font_scale := font_scale,
          cell_width := cell_width,
          cell_height := cell_height }
      else st
    let st2 := { st1 with dimensions := dimensions }
    let size : PtySize :=
      { rows := toU16 dimensions.pixel_height / toU16 st2.cell_height,
        cols := toU16 dimensions.pixel_width / toU16 st2.cell_width,
        pixel_height := toU16 dimensions.pixel_height,
        pixel_width := toU16 dimensions.pixel_width }
    (st2, tabs.map (fun t => (t, size)))

/-! Glyph blit placement (TermWindow::render_screen_line). -/

/-- The top-left point at which render_screen_line blits the sprite of a
glyph: lines 705-707 compute left and top once per glyph, lines 742-748
give the origin of the rectangle of the covered cell (cell_idx is the
covered column, line 722), line 814 drops the left inset for
continuation cells of a multi-cell glyph, and lines 816-819 add and
truncate.  The final float-to-isize casts truncate toward zero. -/
def glyphBlitPos (cell_width cell_height : Int) (descender : ℚ)
    (line_idx cell_idx glyph_idx : Nat) (glyph : CachedGlyph) :
    Int × Int :=
  let left : ℚ := glyph.x_offset + glyph.bearing_x
  let top : ℚ :=
    ((cell_height : ℚ) + descender) - (glyph.y_offset + glyph.bearing_y)
  let origin_x : Int := (cell_idx : Int) * cell_width
  let origin_y : Int := cell_height * (line_idx : Int)
  let left2 : ℚ := if glyph_idx = 0 then left else 0
  (truncToInt ((origin_x : ℚ) + left2), truncToInt ((origin_y : ℚ) + top))

/-- The blit point as claim C5 words it: x is the cell origin plus the
bearing alone (no x_offset term) for the first covered cell, and y is
the cell origin plus the cell height minus offset and bearing (no
descender term).  Written from the words of the spec, for comparison
with glyphBlitPos. -/
def blitPosSpecC5 (cell_width cell_height : Int)
    (line_idx cell_idx glyph_idx : Nat) (glyph : CachedGlyph) :
    Int × Int :=
  let origin_x : Int := (cell_idx : Int) * cell_width
  let origin_y : Int := cell_height * (line_idx : Int)
  let bx : ℚ := if glyph_idx = 0 then glyph.bearing_x else 0
  (truncToInt ((origin_x : ℚ) + bx),
   truncToInt ((origin_y : ℚ) + (cell_height : ℚ)
     - (glyph.y_offset + glyph.bearing_y)))

/-- The blit point as amended: x adds the sum of x_offset and bearing_x
for the first covered cell (nothing for continuation cells), and y adds
the descender of the font to the cell height before subtracting the sum
of y_offset and bearing_y. -/
def blitPosSpecC5Amended (cell_width cell_height : Int) (descender : ℚ)
    (line_idx cell_idx glyph_idx : Nat) (glyph : CachedGlyph) :
    Int × Int :=
  let cell_x : ℚ := ((cell_idx : Int) * cell_width : Int)
  let cell_y : ℚ := (cell_height * (line_idx : Int) : Int)
  let x : ℚ :=
    if glyph_idx = 0 then cell_x + (glyph.x_offset + glyph.bearing_x)
    else cell_x
  let y : ℚ :=
    cell_y + ((cell_height : ℚ) + descender)
      - (glyph.y_offset + glyph.bearing_y)
  (truncToInt x, truncToInt y)

/-! The paint callback (TermWindow::paint). -/

/-- Outcome of one paint_tab attempt as TermWindow::paint sees it after
downcasting the error: success, OutOfTextureSpace with the required
size, or any other error. -/
inductive PaintOutcome
  | ok
  | outOfTextureSpace (size : Nat)
  | otherError
  deriving DecidableEq, Repr

/-- The observable actions of TermWindow::paint. -/
inductive PaintEvent
  | clearAll (color : Color)
  | paintTabAttempt (atlas_size : Nat) (outcome : PaintOutcome)
  | clearGlyphCache
  | newAtlas (size : Nat)
  | makeAllLinesDirty
  | updateTitle
  deriving DecidableEq, Repr

/-- TermWindow::recreate_texture_atlas (lines 349-355): build a fresh
size-by-size surface and atlas, clear the glyph cache, install the new
atlas.  The only failure path inside it is a panic (an expect), so it is
modelled as always succeeding. -/
def recreateTextureAtlasEvents (size : Nat) : List PaintEvent :=
  [.clearGlyphCache, .newAtlas size]

/-- TermWindow::paint (lines 239-265).  With no active tab the context
is cleared to opaque black and nothing else happens.  Otherwise
paint_tab runs; its outcome is the frame parameter, a function of the
current atlas size (the one quantity the recovery path changes between
attempts).  On OutOfTextureSpace the code recreates the atlas at the
required size, marks all lines of the tab dirty and recursively calls
paint again, with no bound on the recursion and with an early return, so
only the innermost call runs update_title.  On success or on any other
error, update_title runs.  The fuel argument serves only Lean
termination: every theorem below uses enough fuel that the zero-fuel
base case, which has no counterpart in the code, is never reached.
Returns the event trace and the final atlas size. -/
def paint (frame : Nat → PaintOutcome) (has_tab : Bool) :
    Nat → Nat → List PaintEvent × Nat
  | 0, atlas_size => ([], atlas_size)
  | fuel + 1, atlas_size =>
    if has_tab then
      match frame atlas_size with
      | .ok =>
        ([.paintTabAttempt atlas_size .ok, .updateTitle], atlas_size)
      | .outOfTextureSpace size =>
        let rest := paint frame has_tab fuel size
        (.paintTabAttempt atlas_size (.outOfTextureSpace size) ::
          (recreateTextureAtlasEvents size ++ (.makeAllLinesDirty :: rest.1)),
         rest.2)
      | .otherError =>
        ([.paintTabAttempt atlas_size .otherError, .updateTitle], atlas_size)
    else
      ([.clearAll (Color.rgb 0 0 0)], atlas_size)

/-- Number of atlas rebuilds recorded in a paint trace. -/
def countNewAtlas (trace : List PaintEvent) : Nat :=
  trace.countP fun e => match e with | .newAtlas _ => true | _ => false

/-- Length of the chain of consecutive atlas exhaustions the frame
function produces when each exhaustion is answered by rebuilding at the
required size, capped by the fuel. -/
def exhaustIters (frame : Nat → PaintOutcome) : Nat → Nat → Nat
  | 0, _ => 0
  | fuel + 1, atlas_size =>
    match frame atlas_size with
    | .outOfTextureSpace size => exhaustIters frame fuel size + 1
    | _ => 0

/-- A frame function that exhausts the atlas twice before succeeding:
at sizes one and two it demands one more unit, at size three it
succeeds. -/
def c1Frame (atlas_size : Nat) : PaintOutcome :=
  if atlas_size < 3 then .outOfTextureSpace (atlas_size + 1) else .ok

/-- Concrete state used by the scaling-change theorems. -/
def c4State : ScalingState :=
  { cell_width := 8, cell_height := 16, dimensions := ⟨800, 600, 96⟩,
    descender := -4, descender_row := 12, descender_plus_one := 13,
    descender_plus_two := 14, strike_row := 6, font_scale := 1,
    atlas_size := 4096, cache_generation := 0 }

/-- Concrete cached glyph used by the blit-placement theorems. -/
def c5Glyph : CachedGlyph :=
  { has_color := false, x_offset := 1, y_offset := 0, bearing_x := 1,
    bearing_y := 12, texture := some 0, scale := 1 }

/-! Theorems settling the claims. -/

/-- C7: a cluster foreground given as palette index idx resolves through
index idx + 8 when idx < 8 and the cell is bold, through index idx when
idx < 8 and not bold, and through index idx unshifted for every
idx ≥ 8; in particular non-bold index 3 resolves the color of index 3
and bold index 3 resolves the color of index 11. -/
theorem c7_palette_brightening {α : Type} (resolve_fg : ColorAttribute → α)
    (style_foreground : Option α) (bold : Bool) (idx : Nat) :
    clusterFgColor resolve_fg style_foreground bold (.paletteIndex idx) =
      resolve_fg (.paletteIndex
        (if idx < 8 then (if bold then idx + 8 else idx) else idx)) ∧
    clusterFgColor resolve_fg style_foreground false (.paletteIndex 3) =
      resolve_fg (.paletteIndex 3) ∧
    clusterFgColor resolve_fg style_foreground true (.paletteIndex 3) =
      resolve_fg (.paletteIndex 11) := by
  refine ⟨?_, ?_, ?_⟩
  · by_cases h : idx < 8 <;> simp [clusterFgColor, h]
  · simp [clusterFgColor]
  · simp [clusterFgColor]

/-- C9: activating a tab index at or beyond the number of tabs in the
window succeeds, leaves the window (in particular its active tab index)
unchanged, and does not update the window title. -/
theorem c9_activate_tab_out_of_range (w : MuxWindow) (tab_idx : Nat)
    (h : w.tabs.length ≤ tab_idx) :
    activateTab (some w) tab_idx = .ok (w, false) := by
  simp [activateTab, Nat.not_lt.mpr h]

/-- Witness for C9: a one-tab window and index 3. -/
theorem c9_witness : activateTab (some ⟨[5], 0⟩) 3 = .ok (⟨[5], 0⟩, false) :=
  c9_activate_tab_out_of_range ⟨[5], 0⟩ 3 (by decide)

/-- C10: a paint issued while the window has no active tab clears the
whole context to opaque black and returns at once; the trace holds no
cache, atlas or title action and the atlas size is unchanged. -/
theorem c10_paint_no_tab (frame : Nat → PaintOutcome)
    (fuel atlas_size : Nat) :
    paint frame false (fuel + 1) atlas_size
      = ([.clearAll (Color.rgb 0 0 0)], atlas_size) ∧
    PaintEvent.clearGlyphCache ∉ (paint frame false (fuel + 1) atlas_size).1 ∧
    PaintEvent.updateTitle ∉ (paint frame false (fuel + 1) atlas_size).1 := by
  refine ⟨by simp [paint], by simp [paint], by simp [paint]⟩

/-- C2 counterexample: at cell_width 8, cell_height 16, x_advance 17/2,
num_cells 1, glyph_height 10 the rule as claimed (per-cell advance
compared raw) gives 16/17, while load_glyph computes scale 1, because
the code floors the per-cell advance before the comparison. -/
theorem c2_counterexample :
    fitScale 8 16 ⟨0, 0, 1, 17/2, 0, 0⟩ 10 = 1 ∧
    fitScaleSpecC2 8 16 ⟨0, 0, 1, 17/2, 0, 0⟩ 10 = 16/17 ∧
    (16 : ℚ) / 17 ≠ 1 := by
  refine ⟨?_, ?_, by norm_num⟩
  · norm_num [fitScale]
  · norm_num [fitScaleSpecC2]

/-- C2 amended: the fit-scale is num_cells * (cell_width / x_advance)
when the floor of the per-cell advance exceeds the cell width, else
cell_height / glyph_height when the raw pixel height exceeds the cell
height, else one; the example for cell_width 8, x_advance 20,
num_cells 2 still gives 4/5. -/
theorem c2_amended_fit_scale (cell_width cell_height : ℚ)
    (info : GlyphInfo) (glyph_height : Nat) :
    fitScale cell_width cell_height info glyph_height =
      (if cell_width < (⌊info.x_advance / (info.num_cells : ℚ)⌋ : ℚ) then
        (info.num_cells : ℚ) * (cell_width / info.x_advance)
      else if cell_height < (glyph_height : ℚ) then
        cell_height / (glyph_height : ℚ)
      else 1) ∧
    (∀ (fi gp : Nat) (xo yo ch : ℚ) (gh : Nat),
      fitScale 8 ch ⟨fi, gp, 2, 20, xo, yo⟩ gh = 4/5) := by
  constructor
  · rfl
  · intro fi gp xo yo ch gh
    norm_num [fitScale]

/-- C3 counterexample: with the left and right buttons both held, a move
event reports button none rather than left, because the held set is
compared for equality with each single-button constant. -/
theorem c3_counterexample :
    mouseEventButton .move ⟨true, true, false⟩ = .none ∧
    moveButtonSpecC3 ⟨true, true, false⟩ = .left ∧
    TMB.none ≠ TMB.left := by
  refine ⟨by decide, by decide, by decide⟩

/-- C3 amended: a move event reports left, right or middle exactly when
that button is the only one held, and none for every other held set,
including any combination of two or more held buttons. -/
theorem c3_amended_move_button (b : MouseButtons) :
    mouseEventButton .move b = moveButtonSpecC3Amended b := by
  obtain ⟨l, r, m⟩ := b
  cases l <;> cases r <;> cases m <;> decide

/-- C5 counterexample: on 8 by 16 cells with descender -4, a first-cell
glyph at column 0 of line 0 with x_offset 1, bearing_x 1, y_offset 0 and
bearing_y 12 is blitted at (2, 0), while the claimed rule places it at
(1, 4): the code adds x_offset to the x position and the (negative)
descender to the y position. -/
theorem c5_counterexample :
    glyphBlitPos 8 16 (-4) 0 0 0 c5Glyph = (2, 0) ∧
    blitPosSpecC5 8 16 0 0 0 c5Glyph = (1, 4) ∧
    ((2 : Int), (0 : Int)) ≠ ((1 : Int), (4 : Int)) := by
  refine ⟨?_, ?_, by decide⟩
  · norm_num [glyphBlitPos, c5Glyph, truncToInt]
  · norm_num [blitPosSpecC5, c5Glyph, truncToInt]

/-- C5 amended: the sprite is blitted at x equal to the cell origin plus
x_offset plus bearing_x for the first covered cell (the bare cell origin
for continuation cells) and y equal to the cell origin plus cell height
plus the font descender minus y_offset and bearing_y; for a first-cell
glyph at column 0 of line 0 with 16-pixel cells this is the truncation
of (x_offset + bearing_x, 16 + descender - (y_offset + bearing_y)). -/
theorem c5_amended_blit_pos (cell_width cell_height : Int)
    (descender : ℚ) (line_idx cell_idx glyph_idx : Nat)
    (glyph : CachedGlyph) :
    glyphBlitPos cell_width cell_height descender line_idx cell_idx
        glyph_idx glyph =
      blitPosSpecC5Amended cell_width cell_height descender line_idx
        cell_idx glyph_idx glyph ∧
    glyphBlitPos cell_width 16 descender 0 0 0 glyph =
      (truncToInt (glyph.x_offset + glyph.bearing_x),
       truncToInt ((16 + descender) - (glyph.y_offset + glyph.bearing_y))) := by
  constructor
  · by_cases h : glyph_idx = 0 <;>
      simp only [glyphBlitPos, blitPosSpecC5Amended, h, if_true, if_false,
        if_pos, if_neg, Prod.mk.injEq, not_false_iff] <;>
      constructor <;> congr 1 <;> push_cast <;> ring
  · simp only [glyphBlitPos, Prod.mk.injEq]
    constructor <;> congr 1 <;> push_cast <;> ring

/-- C4 counterexample: with dpi 96 and font scale 1 both unchanged,
a resize from 800 by 600 to 1000 by 600 pixels still stores the new
dimensions in the window state and still resizes the attached tab, so
the call is not a no-op. -/
theorem c4_counterexample :
    (scalingChanged (fun _ _ => ⟨8, 16, -4⟩) (some [7]) c4State
        ⟨1000, 600, 96⟩ 1).1 =
      { c4State with dimensions := ⟨1000, 600, 96⟩ } ∧
    { c4State with dimensions := (⟨1000, 600, 96⟩ : Dimensions) } ≠ c4State ∧
    (scalingChanged (fun _ _ => ⟨8, 16, -4⟩) (some [7]) c4State
        ⟨1000, 600, 96⟩ 1).2 = [(7, ⟨37, 125, 1000, 600⟩)] := by
  refine ⟨by decide, by decide, by decide⟩

/-- C4 amended: when both dpi and font scale are unchanged,
scaling_changed leaves the cell metrics, decoration rows, descender,
font scale, atlas and cache generation untouched, but it still stores
the new dimensions and still resizes every attached tab to the row and
column counts derived from the new pixel dimensions over the current
cell size. -/
theorem c4_amended_scaling_unchanged (metrics_for : ℚ → Nat → FontMetrics)
    (tabs : List Nat) (st : ScalingState) (dimensions : Dimensions)
    (font_scale : ℚ) (hdpi : dimensions.dpi = st.dimensions.dpi)
    (hfs : font_scale = st.font_scale) :
    scalingChanged metrics_for (some tabs) st dimensions font_scale =
      ({ st with dimensions := dimensions },
       tabs.map fun t =>
         (t, { rows := toU16 dimensions.pixel_height / toU16 st.cell_height,
               cols := toU16 dimensions.pixel_width / toU16 st.cell_width,
               pixel_width := toU16 dimensions.pixel_width,
               pixel_height := toU16 dimensions.pixel_height })) := by
  simp [scalingChanged, hdpi, hfs]

/-- Witness for C4: the unchanged-scaling call of the counterexample
input, through the amended theorem. -/
theorem c4_witness :
    (⟨1000, 600, 96⟩ : Dimensions).dpi = c4State.dimensions.dpi ∧
    scalingChanged (fun _ _ => ⟨8, 16, -4⟩) (some [7]) c4State
        ⟨1000, 600, 96⟩ 1 =
      ({ c4State with dimensions := ⟨1000, 600, 96⟩ },
       [(7, ⟨37, 125, 1000, 600⟩)]) := by
  have h := c4_amended_scaling_unchanged (fun _ _ => ⟨8, 16, -4⟩) [7]
    c4State ⟨1000, 600, 96⟩ 1 rfl rfl
  exact ⟨rfl, h.trans (by decide)⟩

/-- C6: a second cached_glyph lookup with the same key and no
intervening cache clear returns the very same entry (the same Rc
identity) and leaves the cache state unchanged, so load_glyph runs at
most once per key per cache generation. -/
theorem c6_cache_idempotent (can_rasterize : GlyphKey → Bool)
    (key : GlyphKey) (st st1 : GlyphCacheState) (entry : Nat)
    (h : cachedGlyph can_rasterize key st = .ok (entry, st1)) :
    cachedGlyph can_rasterize key st1 = .ok (entry, st1) ∧
    st1.raster_calls.count key ≤ st.raster_calls.count key + 1 := by
  unfold cachedGlyph at h ⊢
  cases hl : lookupEntry st.entries key with
  | some id =>
    rw [hl] at h
    simp only [Except.ok.injEq, Prod.mk.injEq] at h
    obtain ⟨h1, h2⟩ := h
    subst h1; subst h2
    rw [hl]
    exact ⟨rfl, Nat.le_succ _⟩
  | none =>
    rw [hl] at h
    by_cases hc : can_rasterize key
    · simp only [hc, if_true, Except.ok.injEq, Prod.mk.injEq] at h
      obtain ⟨h1, h2⟩ := h
      subst h1
      rw [← h2]
      constructor
      · simp [lookupEntry]
      · simp [List.count_append]
    · simp [hc] at h

/-- Witness for C6: a fresh cache, one key, a rasterizer that always
succeeds. -/
theorem c6_witness :
    cachedGlyph (fun _ => true) ⟨0, 0, 0⟩
        ⟨[(⟨0, 0, 0⟩, 0)], 1, [⟨0, 0, 0⟩]⟩ =
      .ok (0, ⟨[(⟨0, 0, 0⟩, 0)], 1, [⟨0, 0, 0⟩]⟩) ∧
    (GlyphCacheState.mk [(⟨0, 0, 0⟩, 0)] 1
        [⟨0, 0, 0⟩]).raster_calls.count ⟨0, 0, 0⟩ ≤
      (GlyphCacheState.mk [] 0 []).raster_calls.count ⟨0, 0, 0⟩ + 1 :=
  c6_cache_idempotent (fun _ => true) ⟨0, 0, 0⟩ ⟨[], 0, []⟩
    ⟨[(⟨0, 0, 0⟩, 0)], 1, [⟨0, 0, 0⟩]⟩ 0 (by rfl)

/-- C8: when rendering one of the dirty lines fails, paint_tab returns
that error without ever invoking clean_dirty_lines, so the dirty-line
bookkeeping of the terminal model survives the failed frame. -/
theorem c8_paint_tab_error_preserves_dirty (render : Nat → Except Nat Unit)
    (dirty : List Nat) (e : Nat)
    (h : (paintTab render dirty).2 = some e) :
    TabPaintEvent.cleanDirtyLines ∉ (paintTab render dirty).1 ∧
    ∃ i, i ∈ dirty ∧ render i = .error e := by
  induction dirty with
  | nil => simp [paintTab] at h
  | cons i rest ih =>
    cases hr : render i with
    | error e2 =>
      rw [paintTab, hr] at h
      simp only [Option.some.injEq] at h
      subst h
      rw [paintTab, hr]
      exact ⟨by simp, ⟨i, by simp, hr⟩⟩
    | ok u =>
      rw [paintTab, hr] at h
      obtain ⟨h1, j, hj, hje⟩ := ih h
      rw [paintTab, hr]
      refine ⟨by simp [h1], ⟨j, by simp [hj], hje⟩⟩

/-- Witness for C8: three dirty lines, the middle one failing with
error 7. -/
theorem c8_witness :
    TabPaintEvent.cleanDirtyLines ∉
      (paintTab (fun i => if i = 1 then .error 7 else .ok ()) [0, 1, 2]).1 ∧
    ∃ i, i ∈ [0, 1, 2] ∧
      (if i = 1 then (.error 7 : Except Nat Unit) else .ok ()) = .error 7 :=
  c8_paint_tab_error_preserves_dirty
    (fun i => if i = 1 then .error 7 else .ok ()) [0, 1, 2] 7 (by rfl)

/-- C1 counterexample: with a frame that exhausts the atlas at sizes one
and two and succeeds at size three, a paint starting at atlas size one
rebuilds the atlas twice within the same frame and then completes it
successfully: the second exhaustion inside the retry is neither fatal
nor skips the frame, and the frame is re-run more than once. -/
theorem c1_counterexample :
    paint c1Frame true 5 1 =
      ([.paintTabAttempt 1 (.outOfTextureSpace 2), .clearGlyphCache,
        .newAtlas 2, .makeAllLinesDirty,
        .paintTabAttempt 2 (.outOfTextureSpace 3), .clearGlyphCache,
        .newAtlas 3, .makeAllLinesDirty,
        .paintTabAttempt 3 .ok, .updateTitle], 3) ∧
    countNewAtlas (paint c1Frame true 5 1).1 = 2 ∧
    (paint c1Frame true 5 1).1.getLast? = some .updateTitle := by
  refine ⟨by decide, by decide, by decide⟩

/-- C1 amended: when paint_tab fails with OutOfTextureSpace carrying a
required size, paint rebuilds the atlas at exactly that size, clears the
glyph cache, marks every line of the active tab dirty, and recursively
re-runs the whole frame; the retry is not bounded to one: the number of
rebuilds within a frame equals the length of the chain of consecutive
exhaustions, each later exhaustion being handled the same way rather
than being fatal. -/
theorem c1_amended_exhaustion_recovery (frame : Nat → PaintOutcome)
    (fuel atlas_size size : Nat)
    (h : frame atlas_size = .outOfTextureSpace size) :
    paint frame true (fuel + 1) atlas_size =
      (.paintTabAttempt atlas_size (.outOfTextureSpace size) ::
        .clearGlyphCache :: .newAtlas size :: .makeAllLinesDirty ::
        (paint frame true fuel size).1,
       (paint frame true fuel size).2) ∧
    (∀ (f s : Nat),
      countNewAtlas (paint frame true f s).1 = exhaustIters frame f s) := by
  constructor
  · simp [paint, h, recreateTextureAtlasEvents]
  · intro f
    induction f with
    | zero =>
      intro s
      simp [paint, exhaustIters, countNewAtlas]
    | succ n ih =>
      intro s
      cases hf : frame s with
      | ok =>
        simp [paint, exhaustIters, hf, countNewAtlas]
      | outOfTextureSpace sz =>
        simp [paint, exhaustIters, hf, countNewAtlas,
          recreateTextureAtlasEvents, List.countP_cons]
        exact ih sz
      | otherError =>
        simp [paint, exhaustIters, hf, countNewAtlas]

/-- Witness for C1: the double-exhaustion frame at atlas size one. -/
theorem c1_witness :
    c1Frame 1 = .outOfTextureSpace 2 ∧
    paint c1Frame true 5 1 =
      (.paintTabAttempt 1 (.outOfTextureSpace 2) ::
        .clearGlyphCache :: .newAtlas 2 :: .makeAllLinesDirty ::
        (paint c1Frame true 4 2).1,
       (paint c1Frame true 4 2).2) :=
  ⟨by decide, (c1_amended_exhaustion_recovery c1Frame 4 1 2 (by decide)).1⟩

end TermWindowModel
